import Mathlib

/-!
Shallow embedding of the Auto-Claude spec-lifecycle core
(`auto-claude/mcp/tools.py` and `auto-claude/phase_config.py`).

Python dictionaries returned by the tools are modelled as ordered
association lists of JSON-like values (`JObj`).  Filesystem state read by
the tools is modelled explicitly by the `FS` structure; subprocess
behaviour is an oracle parameter, and every subprocess invocation an
operation performs is recorded in an effect trace, so frame properties
("performs no mutation") are provable as emptiness of the trace.
-/

namespace AutoClaude

/-- JSON-like values, the result language of every tool. -/
inductive JVal where
  | s (v : String)
  | b (v : Bool)
  | n (v : Int)
  | null
  | arr (elems : List JVal)
  | obj (fields : List (String × JVal))

/-- A Python dict result, in insertion order. -/
abbrev JObj := List (String × JVal)

/-! ### Small Python-semantics helpers -/

/-- Does the list of characters start with the pattern? -/
def listStarts : List Char → List Char → Bool
  | [], _ => true
  | _ :: _, [] => false
  | p :: ps, c :: cs => p = c && listStarts ps cs

/-- Does the list of characters contain the pattern as a contiguous run? -/
def listHasSub (pat : List Char) : List Char → Bool
  | [] => listStarts pat []
  | c :: cs => listStarts pat (c :: cs) || listHasSub pat cs

/-- Python's `pat in s` substring test. -/
def strContainsSub (s pat : String) : Bool :=
  listHasSub pat.data s.data

/-- Python's `s.startswith(pre)`. -/
def str_starts (s pre : String) : Bool :=
  listStarts pre.data s.data

/-- Python's `s.lower()` (the identifiers involved are ASCII). -/
def str_lower (s : String) : String :=
  ⟨s.data.map Char.toLower⟩

/-- Python's `s.upper()` (the pass markers involved are ASCII). -/
def str_upper (s : String) : String :=
  ⟨s.data.map Char.toUpper⟩

/-- Python's `s.strip()`. -/
def py_strip (s : String) : String :=
  ⟨((s.data.dropWhile Char.isWhitespace).reverse.dropWhile Char.isWhitespace).reverse⟩

/-- Splitting a character list at every occurrence of `c`. -/
def splitOnChar (c : Char) : List Char → List (List Char)
  | [] => [[]]
  | x :: xs =>
      match splitOnChar c xs with
      | [] => [[]]
      | r :: rs => if x = c then [] :: r :: rs else (x :: r) :: rs

/-- Python's `s.split("\n")`. -/
def py_split_nl (s : String) : List String :=
  (splitOnChar '\n' s.data).map String.mk

/-- Python truthiness of an optional string (`None` and `""` are falsy). -/
def pyTruthy : Option String → Bool
  | none => false
  | some s => s ≠ ""

/-- Python `a or b` on optional strings. -/
def pyOr (a b : Option String) : Option String :=
  if pyTruthy a then a else b

/-- Python dict assignment `m[k] = v`: overwrite if present, else append. -/
def dictSet (m : List (String × String)) (k v : String) : List (String × String) :=
  if m.any (fun kv => kv.1 = k) then
    m.map (fun kv => if kv.1 = k then (k, v) else kv)
  else
    m ++ [(k, v)]

/-! ### Data model: plans, specs, filesystem -/

/-- A subtask entry of `implementation_plan.json`; `none` fields model
absent JSON keys (`subtask.get(...)`). -/
structure Subtask where
  id : Option String := none
  description : Option String := none
  status : Option String := none
  attempts : Option Int := none
deriving DecidableEq, Repr

/-- A phase entry of `implementation_plan.json`. -/
structure PlanPhase where
  name : Option String := none
  subtasks : List Subtask := []
deriving DecidableEq, Repr

/-- The parsed `implementation_plan.json`. -/
structure Plan where
  phases : List PlanPhase := []
deriving DecidableEq, Repr

/-- The `qa_report.md` artifact: its text and the ISO rendering of its
modification time (`datetime.fromtimestamp(stat().st_mtime).isoformat()`). -/
structure QaReport where
  content : String := ""
  mtime_iso : String := ""
deriving DecidableEq, Repr

/-- Parsed `review_state.json`. -/
structure ReviewState where
  approved : Option Bool := none
  approved_by : Option String := none
deriving DecidableEq, Repr

/-- Parsed `qa_state.json`. -/
structure QaState where
  passed : Option Bool := none
  issues : Option (List String) := none
  last_run : Option String := none
deriving DecidableEq, Repr

/-- Parsed `task_metadata.json` (phase_config.TaskMetadataConfig). -/
structure TaskMetadata where
  isAutoProfile : Option Bool := none
  phaseModels : Option (List (String × String)) := none
  phaseThinking : Option (List (String × String)) := none
  model : Option String := none
  thinkingLevel : Option String := none
deriving DecidableEq, Repr

/-- One directory entry of `.auto-claude/specs/`.  For each JSON artifact,
`none` means the file is absent, `some none` that it exists but fails to
parse, and `some (some v)` that it parses to `v`. -/
structure SpecEntry where
  name : String := ""
  is_dir : Bool := true
  plan_file : Option (Option Plan) := none
  review_file : Option (Option ReviewState) := none
  qa_report : Option QaReport := none
  qa_state_file : Option (Option QaState) := none
  task_metadata_file : Option (Option TaskMetadata) := none
deriving DecidableEq, Repr

/-- One directory entry of `.auto-claude-worktrees/`. -/
structure WtEntry where
  name : String := ""
  is_dir : Bool := true
deriving DecidableEq, Repr

/-- The filesystem state a tool call observes.  `specs`/`worktrees` are
`none` when the respective directory does not exist, otherwise the
directory entries in iteration order. -/
structure FS where
  project_dir : String := "."
  specs : Option (List SpecEntry) := none
  worktrees : Option (List WtEntry) := none
deriving DecidableEq, Repr

/-- `_find_spec`: first directory entry whose name equals the id or starts
with `"<id>-"` (tools.py:37-47). -/
def find_spec (fs : FS) (spec_id : String) : Option SpecEntry :=
  match fs.specs with
  | none => none
  | some entries =>
      entries.find? (fun d =>
        d.is_dir && (d.name = spec_id || str_starts d.name (spec_id ++ "-")))

/-- `_load_implementation_plan` (tools.py:50-58): `None` on absence or
JSON decode error. -/
def load_implementation_plan (sd : SpecEntry) : Option Plan :=
  match sd.plan_file with
  | some (some p) => some p
  | _ => none

/-- Does `.auto-claude-worktrees/<name>` exist? -/
def worktree_exists (fs : FS) (name : String) : Bool :=
  match fs.worktrees with
  | none => false
  | some l => l.any (fun w => w.name = name)

/-! ### Status aggregation (tools.py:61-100) -/

/-- Subtask counts, as in `_get_subtask_counts`. -/
structure Counts where
  completed : Nat := 0
  in_progress : Nat := 0
  pending : Nat := 0
  stuck : Nat := 0
  total : Nat := 0
deriving DecidableEq, Repr

/-- `subtask.get("status", "pending")`. -/
def subtask_status (st : Subtask) : String :=
  st.status.getD "pending"

/-- One iteration of the counting loop in `_get_subtask_counts`. -/
def count_step (c : Counts) (st : Subtask) : Counts :=
  let s := subtask_status st
  let c := { c with total := c.total + 1 }
  if s = "complete" then { c with completed := c.completed + 1 }
  else if s = "in_progress" then { c with in_progress := c.in_progress + 1 }
  else if s = "stuck" then { c with stuck := c.stuck + 1 }
  else { c with pending := c.pending + 1 }

/-- `_get_subtask_counts` (tools.py:61-78). -/
def get_subtask_counts (plan : Plan) : Counts :=
  plan.phases.foldl (fun c phase => phase.subtasks.foldl count_step c) {}

/-- `_get_spec_overall_status` (tools.py:81-100); the QA-report existence
check reads the spec directory. -/
def get_spec_overall_status (sd : SpecEntry) (plan : Option Plan) : String :=
  match plan with
  | none => "pending"
  | some p =>
      let counts := get_subtask_counts p
      if counts.total = 0 then "pending"
      else if counts.completed = counts.total then
        if sd.qa_report.isSome then "qa_complete" else "complete"
      else if counts.in_progress > 0 then "in_progress"
      else if counts.stuck > 0 then "stuck"
      else "pending"

/-- Number of subtasks whose status key equals `"complete"`
(`sum(1 for s in phase_subtasks if s.get("status") == "complete")`,
tools.py:206). -/
def phase_completed_count (subtasks : List Subtask) : Nat :=
  subtasks.countP (fun st => st.status = some "complete")

/-- The inline per-phase status expression of `get_spec_status`
(tools.py:207). -/
def phase_status (subtasks : List Subtask) : String :=
  if phase_completed_count subtasks = subtasks.length then "complete"
  else if phase_completed_count subtasks > 0 then "in_progress"
  else "pending"

/-! ### Subprocess model -/

/-- A `subprocess.run` / `subprocess.Popen` invocation: argument vector,
working directory, and the `timeout=` parameter when one is passed. -/
structure SubprocessCall where
  argv : List String := []
  cwd : String := "."
  timeout : Option Nat := none
deriving DecidableEq, Repr

/-- Outcome of a waited subprocess call.  `timedOut` models
`subprocess.TimeoutExpired`; `raised` any other exception (rendered as its
`str(e)` text).  A call whose `timeout` is `none` never times out in
Python; the embedding treats a `timedOut` outcome there like any other
exception, which is what `except Exception` would do. -/
inductive RunOutcome where
  | completed (returncode : Int) (stdout stderr : String)
  | timedOut
  | raised (msg : String)
deriving DecidableEq, Repr

/-- Outcome of a detached `subprocess.Popen` launch. -/
inductive LaunchOutcome where
  | started (pid : Nat)
  | raised (msg : String)
deriving DecidableEq, Repr

/-- Observable side effect of a tool call: a waited subprocess run, or a
detached background launch. -/
inductive Effect where
  | runProc (call : SubprocessCall)
  | spawn (argv : List String) (cwd : String)
deriving DecidableEq, Repr

/-- Environment responding to waited subprocess calls. -/
abbrev RunOracle := SubprocessCall → RunOutcome

/-- Environment responding to detached launches. -/
abbrev SpawnOracle := List String → LaunchOutcome

/-- Abstract stand-in for `sys.executable`. -/
def sys_executable : String := "python"

/-- Abstract stand-in for `str(_PARENT_DIR / "run.py")`. -/
def run_py : String := "auto-claude/run.py"

/-- `str(e)` rendering of a run outcome that entered an `except` block. -/
def outcome_exc_text : RunOutcome → String
  | .raised m => m
  | .timedOut => "TimeoutExpired"
  | .completed _ _ _ => ""

/-- The path string of a spec's worktree directory. -/
def worktree_path (fs : FS) (name : String) : String :=
  fs.project_dir ++ "/.auto-claude-worktrees/" ++ name

/-- The uniform not-found error text `f"Spec '{spec_id}' not found"`. -/
def spec_not_found_msg (spec_id : String) : String :=
  "Spec '" ++ spec_id ++ "' not found"

/-- Not-found result of the query tools (`{"error": ..., "found": False}`). -/
def not_found_query (spec_id : String) : JObj :=
  [("error", .s (spec_not_found_msg spec_id)), ("found", .b false)]

/-- Not-found result of the action tools (`{"error": ..., "status": "error"}`). -/
def not_found_action (spec_id : String) : JObj :=
  [("error", .s (spec_not_found_msg spec_id)), ("status", .s "error")]

/-! ### Query tools (tools.py:167-289) -/

/-- JSON rendering of an optional string (`None` ⇒ `null`). -/
def jStrOpt : Option String → JVal
  | none => .null
  | some s => .s s

/-- The `current_subtask` scan of `get_spec_status` (tools.py:216-224):
each phase's first `in_progress` subtask overwrites the previous value. -/
def current_subtask_scan (phases : List PlanPhase) : Option Subtask :=
  phases.foldl (fun acc ph =>
    match ph.subtasks.find? (fun st => st.status = some "in_progress") with
    | some st => some st
    | none => acc) none

/-- The per-phase summary objects built by `get_spec_status` (tools.py:203-214). -/
def phases_summary (phases : List PlanPhase) : List JVal :=
  phases.map (fun ph =>
    .obj [("name", .s (ph.name.getD "Unknown")),
          ("status", .s (phase_status ph.subtasks)),
          ("subtasks", .n ph.subtasks.length),
          ("completed", .n (phase_completed_count ph.subtasks))])

/-- The `subtasks` counts dict serialized by `get_spec_status`. -/
def counts_obj (c : Counts) : JVal :=
  .obj [("completed", .n c.completed), ("in_progress", .n c.in_progress),
        ("pending", .n c.pending), ("stuck", .n c.stuck), ("total", .n c.total)]

/-- `get_spec_status` (tools.py:167-241). -/
def get_spec_status (fs : FS) (spec_id : String) : JObj :=
  match find_spec fs spec_id with
  | none => not_found_query spec_id
  | some sd =>
      let plan := load_implementation_plan sd
      let status := get_spec_overall_status sd plan
      let approvedPair : Bool × Option String :=
        match sd.review_file with
        | some (some rv) => (rv.approved.getD false, rv.approved_by)
        | _ => (false, none)
      let phases : List JVal :=
        match plan with
        | some p => phases_summary p.phases
        | none => []
      let current : JVal :=
        match plan with
        | some p =>
            match current_subtask_scan p.phases with
            | some st =>
                .obj [("id", jStrOpt st.id),
                      ("description", jStrOpt st.description),
                      ("attempts", .n (st.attempts.getD 1))]
            | none => .null
        | none => .null
      let counts : Counts :=
        match plan with
        | some p => get_subtask_counts p
        | none => {}
      [("id", .s sd.name),
       ("found", .b true),
       ("status", .s status),
       ("approved", .b approvedPair.1),
       ("approved_by", jStrOpt approvedPair.2),
       ("phases", .arr phases),
       ("subtasks", counts_obj counts),
       ("current_subtask", current),
       ("worktree_path",
        if worktree_exists fs sd.name then .s (worktree_path fs sd.name) else .null)]

/-- Pass detection on the markdown QA report (tools.py:286):
`"✅" in content or "PASSED" in content.upper()`. -/
def qa_report_passed (content : String) : Bool :=
  strContainsSub content "✅" || strContainsSub (str_upper content) "PASSED"

/-- `get_qa_status` (tools.py:244-289).  Note the `if qa_state.exists(): ...
except: pass / elif qa_report.exists(): ...` shape: an existing but
unparseable `qa_state.json` leaves the defaults in place and skips the
markdown branch. -/
def get_qa_status (fs : FS) (spec_id : String) : JObj :=
  match find_spec fs spec_id with
  | none => not_found_query spec_id
  | some sd =>
      let fields : Bool × Bool × List String × Option String :=
        match sd.qa_state_file with
        | some (some st) => (true, st.passed.getD false, st.issues.getD [], st.last_run)
        | some none => (false, false, [], none)
        | none =>
            match sd.qa_report with
            | some r => (true, qa_report_passed r.content, [], some r.mtime_iso)
            | none => (false, false, [], none)
      [("spec_id", .s sd.name),
       ("found", .b true),
       ("qa_run", .b fields.1),
       ("passed", .b fields.2.1),
       ("issues", .arr (fields.2.2.1.map JVal.s)),
       ("last_run", jStrOpt fields.2.2.2)]

/-- `review_build` (tools.py:292-348).  Both git inspections are
best-effort: a failing call yields an empty list. -/
def review_build (fs : FS) (oracle : RunOracle) (spec_id : String) :
    List Effect × JObj :=
  match find_spec fs spec_id with
  | none => ([], not_found_query spec_id)
  | some sd =>
      if worktree_exists fs sd.name then
        let wt := worktree_path fs sd.name
        let diffCall : SubprocessCall :=
          { argv := ["git", "diff", "--name-only", "HEAD~5..HEAD"], cwd := wt }
        let files : List String :=
          match oracle diffCall with
          | .completed rc out _ =>
              if rc = 0 then (py_split_nl (py_strip out)).filter (fun f => f ≠ "") else []
          | _ => []
        let logCall : SubprocessCall :=
          { argv := ["git", "log", "--oneline", "-5"], cwd := wt }
        let commits : List String :=
          match oracle logCall with
          | .completed rc out _ =>
              if rc = 0 then (py_split_nl (py_strip out)).filter (fun c => c ≠ "") else []
          | _ => []
        ([.runProc diffCall, .runProc logCall],
         [("spec_id", .s sd.name),
          ("found", .b true),
          ("has_worktree", .b true),
          ("files_changed", .arr (files.map JVal.s)),
          ("commits", .arr (commits.map JVal.s))])
      else
        ([],
         [("spec_id", .s sd.name),
          ("found", .b true),
          ("has_worktree", .b false),
          ("files_changed", .arr []),
          ("commits", .arr [])])

/-- `merge_preview` (tools.py:401-464). -/
def merge_preview (fs : FS) (oracle : RunOracle) (spec_id : String) :
    List Effect × JObj :=
  match find_spec fs spec_id with
  | none => ([], not_found_query spec_id)
  | some sd =>
      if worktree_exists fs sd.name then
        let wt := worktree_path fs sd.name
        let base (can_merge : Bool) (conflicts : List String) : JObj :=
          [("spec_id", .s sd.name),
           ("found", .b true),
           ("has_worktree", .b true),
           ("can_merge", .b can_merge),
           ("conflicts", .arr (conflicts.map JVal.s)),
           ("files_to_merge", .arr [])]
        let branchCall : SubprocessCall :=
          { argv := ["git", "branch", "--show-current"], cwd := wt }
        match oracle branchCall with
        | .completed rc out _ =>
            let branch : Option String := if rc = 0 then some (py_strip out) else none
            if pyTruthy branch then
              let mergeCall : SubprocessCall :=
                { argv := ["git", "merge", "--no-commit", "--no-ff", "main", "--dry-run"],
                  cwd := wt }
              match oracle mergeCall with
              | .completed rc2 _ err2 =>
                  if rc2 ≠ 0 then
                    ([.runProc branchCall, .runProc mergeCall],
                     base false (py_split_nl (py_strip err2)))
                  else
                    ([.runProc branchCall, .runProc mergeCall], base true [])
              | out2 =>
                  ([.runProc branchCall, .runProc mergeCall],
                   base true [] ++ [("error", .s (outcome_exc_text out2))])
            else
              ([.runProc branchCall], base true [])
        | out1 =>
            ([.runProc branchCall],
             base true [] ++ [("error", .s (outcome_exc_text out1))])
      else
        ([],
         [("spec_id", .s sd.name),
          ("found", .b true),
          ("has_worktree", .b false),
          ("can_merge", .b false),
          ("message", .s "No worktree found for this spec")])

/-! ### Action tools (tools.py:471-799) -/

/-- The command vector built by `run_build` (tools.py:501-525), including
the empty-string placeholder filtering. -/
def run_build_cmd (fs : FS) (sd : SpecEntry) (model : Option String)
    (max_iterations : Option Nat) (mode : String) (auto_continue skip_qa : Bool) :
    List String :=
  let cmd := [sys_executable, run_py, "--spec", sd.name,
              "--project-dir", fs.project_dir,
              if auto_continue then "--auto-continue" else ""]
  let cmd := cmd ++ (if mode = "isolated" then ["--isolated"]
                     else if mode = "direct" then ["--direct"] else [])
  let cmd := cmd ++ (match model with
                     | some m => ["--model", m]
                     | none => [])
  let cmd := cmd ++ (match max_iterations with
                     | some k => if k ≠ 0 then ["--max-iterations", toString k] else []
                     | none => [])
  let cmd := cmd ++ (if skip_qa then ["--skip-qa"] else [])
  cmd.filter (fun c => c ≠ "")

/-- `run_build` (tools.py:471-548). -/
def run_build (fs : FS) (launcher : SpawnOracle) (spec_id : String)
    (model : Option String := none) (max_iterations : Option Nat := none)
    (mode : String := "isolated") (auto_continue : Bool := true)
    (skip_qa : Bool := false) : List Effect × JObj :=
  match find_spec fs spec_id with
  | none => ([], not_found_action spec_id)
  | some sd =>
      let cmd := run_build_cmd fs sd model max_iterations mode auto_continue skip_qa
      match launcher cmd with
      | .started pid =>
          ([.spawn cmd fs.project_dir],
           [("status", .s "started"),
            ("spec_id", .s sd.name),
            ("pid", .n pid),
            ("mode", .s mode),
            ("message", .s ("Build started for " ++ sd.name ++
                            ". Use get_spec_status to monitor."))])
      | .raised m =>
          ([.spawn cmd fs.project_dir],
           [("status", .s "error"), ("error", .s m)])

/-- `run_qa` (tools.py:551-592). -/
def run_qa (fs : FS) (launcher : SpawnOracle) (spec_id : String) :
    List Effect × JObj :=
  match find_spec fs spec_id with
  | none => ([], not_found_action spec_id)
  | some sd =>
      let cmd := [sys_executable, run_py, "--spec", sd.name,
                  "--project-dir", fs.project_dir, "--qa"]
      match launcher cmd with
      | .started pid =>
          ([.spawn cmd fs.project_dir],
           [("status", .s "started"),
            ("spec_id", .s sd.name),
            ("pid", .n pid),
            ("message", .s ("QA validation started for " ++ sd.name))])
      | .raised m =>
          ([.spawn cmd fs.project_dir],
           [("status", .s "error"), ("error", .s m)])

/-- `run_followup` (tools.py:595-636). -/
def run_followup (fs : FS) (launcher : SpawnOracle) (spec_id : String) :
    List Effect × JObj :=
  match find_spec fs spec_id with
  | none => ([], not_found_action spec_id)
  | some sd =>
      let cmd := [sys_executable, run_py, "--spec", sd.name,
                  "--project-dir", fs.project_dir, "--followup"]
      match launcher cmd with
      | .started pid =>
          ([.spawn cmd fs.project_dir],
           [("status", .s "started"),
            ("spec_id", .s sd.name),
            ("pid", .n pid),
            ("message", .s ("Followup planner started for " ++ sd.name))])
      | .raised m =>
          ([.spawn cmd fs.project_dir],
           [("status", .s "error"), ("error", .s m)])

/-- The bounded wait, in seconds, `merge_build` passes to `subprocess.run`
(tools.py:678). -/
def MERGE_TIMEOUT : Nat := 60

/-- The synchronous merge invocation `merge_build` waits for
(tools.py:661-679). -/
def merge_call (fs : FS) (sd : SpecEntry) (no_commit : Bool) : SubprocessCall :=
  { argv := [sys_executable, run_py, "--spec", sd.name,
             "--project-dir", fs.project_dir, "--merge"] ++
            (if no_commit then ["--no-commit"] else []),
    cwd := fs.project_dir,
    timeout := some MERGE_TIMEOUT }

/-- `merge_build` (tools.py:639-690): synchronous, bounded wait;
`TimeoutExpired` maps to the fixed "Merge timed out" result. -/
def merge_build (fs : FS) (oracle : RunOracle) (spec_id : String)
    (no_commit : Bool := false) : List Effect × JObj :=
  match find_spec fs spec_id with
  | none => ([], not_found_action spec_id)
  | some sd =>
      let call := merge_call fs sd no_commit
      match oracle call with
      | .completed rc out err =>
          ([.runProc call],
           [("status", .s (if rc = 0 then "success" else "error")),
            ("spec_id", .s sd.name),
            ("output", .s out),
            ("error", if rc ≠ 0 then .s err else .null)])
      | .timedOut =>
          ([.runProc call],
           [("status", .s "error"), ("error", .s "Merge timed out")])
      | .raised m =>
          ([.runProc call],
           [("status", .s "error"), ("error", .s m)])

/-- The blocked result of `discard_build` (tools.py:709-713). -/
def discard_blocked : JObj :=
  [("status", .s "blocked"),
   ("message", .s "Set confirm=True to actually discard the build. This action is irreversible.")]

/-- `discard_build` (tools.py:693-751).  The confirmation gate is checked
before the spec id is resolved and before any filesystem or subprocess
access. -/
def discard_build (fs : FS) (oracle : RunOracle) (spec_id : String)
    (confirm : Bool := false) : List Effect × JObj :=
  if !confirm then
    ([], discard_blocked)
  else
    match find_spec fs spec_id with
    | none => ([], not_found_action spec_id)
    | some sd =>
        if worktree_exists fs sd.name then
          let removeCall : SubprocessCall :=
            { argv := ["git", "worktree", "remove", "--force", worktree_path fs sd.name],
              cwd := fs.project_dir }
          match oracle removeCall with
          | .completed _ _ _ =>
              let branchCall : SubprocessCall :=
                { argv := ["git", "branch", "-D", "auto-claude/" ++ sd.name],
                  cwd := fs.project_dir }
              match oracle branchCall with
              | .completed _ _ _ =>
                  ([.runProc removeCall, .runProc branchCall],
                   [("status", .s "success"),
                    ("spec_id", .s sd.name),
                    ("message", .s ("Build for " ++ sd.name ++ " has been discarded"))])
              | out2 =>
                  ([.runProc removeCall, .runProc branchCall],
                   [("status", .s "error"), ("error", .s (outcome_exc_text out2))])
          | out1 =>
              ([.runProc removeCall],
               [("status", .s "error"), ("error", .s (outcome_exc_text out1))])
        else
          ([], [("status", .s "error"),
                ("message", .s "No worktree found to discard")])

/-- The blocked result of `cleanup_worktrees` (tools.py:765-769). -/
def cleanup_blocked : JObj :=
  [("status", .s "blocked"),
   ("message", .s "Set confirm=True to cleanup all worktrees. This action is irreversible.")]

/-- One iteration of the cleanup loop (tools.py:780-792), accumulating
(effects, removed names, error objects). -/
def cleanup_step (fs : FS) (oracle : RunOracle)
    (acc : List Effect × List String × List JVal) (wt : WtEntry) :
    List Effect × List String × List JVal :=
  if wt.is_dir then
    let call : SubprocessCall :=
      { argv := ["git", "worktree", "remove", "--force", worktree_path fs wt.name],
        cwd := fs.project_dir }
    match oracle call with
    | .completed _ _ _ =>
        (acc.1 ++ [.runProc call], acc.2.1 ++ [wt.name], acc.2.2)
    | out =>
        (acc.1 ++ [.runProc call], acc.2.1,
         acc.2.2 ++ [.obj [("worktree", .s wt.name),
                           ("error", .s (outcome_exc_text out))]])
  else acc

/-- `cleanup_worktrees` (tools.py:754-799). -/
def cleanup_worktrees (fs : FS) (oracle : RunOracle) (confirm : Bool := false) :
    List Effect × JObj :=
  if !confirm then
    ([], cleanup_blocked)
  else
    match fs.worktrees with
    | none =>
        ([], [("status", .s "success"),
              ("message", .s "No worktrees to cleanup"),
              ("removed", .n 0)])
    | some l =>
        let acc := l.foldl (cleanup_step fs oracle) ([], [], [])
        (acc.1,
         [("status", .s (if acc.2.2.isEmpty then "success" else "partial")),
          ("removed", .arr (acc.2.1.map JVal.s)),
          ("removed_count", .n acc.2.1.length),
          ("errors", if acc.2.2.isEmpty then .null else .arr acc.2.2)])

/-! ### Phase configuration (phase_config.py) -/

/-- The environment variables `phase_config.py` consults; `none` = unset. -/
structure Env where
  auto_build_model : Option String := none
  anthropic_model : Option String := none
  anthropic_small_fast_model : Option String := none
deriving DecidableEq, Repr

/-- `DEFAULT_MODEL_IDS` (phase_config.py:22-26). -/
def DEFAULT_MODEL_IDS : List (String × String) :=
  [("opus", "claude-opus-4-5-20251101"),
   ("sonnet", "claude-sonnet-4-5-20250929"),
   ("haiku", "claude-haiku-4-5-20251001")]

/-- The `common_ids` list of `get_model_id_map` (phase_config.py:36-41). -/
def common_ids : List String :=
  ["claude-3-5-sonnet-latest", "claude-3-5-sonnet-20241022",
   "claude-sonnet-4-5-latest", "claude-sonnet-4-5-20250929",
   "claude-3-5-haiku-latest", "claude-3-5-haiku-20241022",
   "claude-haiku-4-5-latest", "claude-haiku-4-5-20251001",
   "claude-3-opus-latest", "claude-3-opus-20240229",
   "claude-opus-4-5-latest", "claude-opus-4-5-20251101",
   "claude-3-sonnet-20240229", "claude-3-haiku-20240307"]

/-- `get_model_id_map` (phase_config.py:28-56). -/
def get_model_id_map (env : Env) : List (String × String) :=
  let primary := pyOr env.auto_build_model env.anthropic_model
  let fast := pyOr env.anthropic_small_fast_model primary
  let m := DEFAULT_MODEL_IDS
  let m :=
    if pyTruthy primary then
      let pv := primary.getD ""
      let m := dictSet (dictSet m "sonnet" pv) "opus" pv
      common_ids.foldl (fun m cid =>
        if !strContainsSub cid "haiku" then dictSet m cid pv else m) m
    else m
  let m :=
    if pyTruthy fast then
      let fv := fast.getD ""
      let m := dictSet m "haiku" fv
      common_ids.foldl (fun m cid =>
        if strContainsSub cid "haiku" then dictSet m cid fv else m) m
    else m
  m

/-- `resolve_model_id` (phase_config.py:133-154). -/
def resolve_model_id (env : Env) (model_id : String) : String :=
  if model_id = "" then ""
  else
    match (get_model_id_map env).lookup (str_lower model_id) with
    | some v => v
    | none => model_id

/-- `THINKING_BUDGET_MAP` (phase_config.py:63-69); `none` = no extended
thinking. -/
def THINKING_BUDGET_MAP : List (String × Option Int) :=
  [("none", none), ("low", some 1024), ("medium", some 4096),
   ("high", some 16384), ("ultrathink", some 65536)]

/-- `get_thinking_budget` (phase_config.py:157-177): unknown tiers log a
warning and fall back to the `"medium"` budget. -/
def get_thinking_budget (thinking_level : String) : Option Int :=
  match THINKING_BUDGET_MAP.lookup thinking_level with
  | some budget => budget
  | none => (THINKING_BUDGET_MAP.lookup "medium").getD none

/-- The four execution phases (phase_config.Phase). -/
inductive Phase where
  | spec
  | planning
  | coding
  | qa
deriving DecidableEq, Repr

/-- The string key of a phase. -/
def Phase.key : Phase → String
  | .spec => "spec"
  | .planning => "planning"
  | .coding => "coding"
  | .qa => "qa"

/-- `DEFAULT_PHASE_MODELS` (phase_config.py:91-96). -/
def DEFAULT_PHASE_MODELS : Phase → String
  | .spec => "sonnet"
  | .planning => "opus"
  | .coding => "sonnet"
  | .qa => "sonnet"

/-- `DEFAULT_PHASE_THINKING` (phase_config.py:98-103). -/
def DEFAULT_PHASE_THINKING : Phase → String
  | .spec => "medium"
  | .planning => "high"
  | .coding => "medium"
  | .qa => "high"

/-- `load_task_metadata` (phase_config.py:180-198): `None` on absence or
parse error. -/
def load_task_metadata (sd : SpecEntry) : Option TaskMetadata :=
  match sd.task_metadata_file with
  | some (some md) => some md
  | _ => none

/-- Python truthiness of an optional association list (a missing key or an
empty dict is falsy). -/
def pyTruthyDict (o : Option (List (String × String))) : Bool :=
  match o with
  | none => false
  | some l => !l.isEmpty

/-- `get_phase_model` (phase_config.py:201-250).  The environment override
is applied before the CLI argument, the metadata, and the defaults. -/
def get_phase_model (env : Env) (sd : SpecEntry) (phase : Phase)
    (cli_model : Option String := none) : String :=
  let env_model := pyOr env.auto_build_model env.anthropic_model
  if pyTruthy env_model then resolve_model_id env (env_model.getD "")
  else if pyTruthy cli_model then resolve_model_id env (cli_model.getD "")
  else
    match load_task_metadata sd with
    | some md =>
        if md.isAutoProfile.getD false && pyTruthyDict md.phaseModels then
          resolve_model_id env
            (((md.phaseModels.getD []).lookup phase.key).getD (DEFAULT_PHASE_MODELS phase))
        else if pyTruthy md.model then resolve_model_id env (md.model.getD "")
        else resolve_model_id env (DEFAULT_PHASE_MODELS phase)
    | none => resolve_model_id env (DEFAULT_PHASE_MODELS phase)

/-- `get_phase_thinking` (phase_config.py:253-293).  The function reads no
environment variables; the `env` parameter records only the ambient
process state, which the body ignores. -/
def get_phase_thinking (_env : Env) (sd : SpecEntry) (phase : Phase)
    (cli_thinking : Option String := none) : String :=
  if pyTruthy cli_thinking then cli_thinking.getD ""
  else
    match load_task_metadata sd with
    | some md =>
        if md.isAutoProfile.getD false && pyTruthyDict md.phaseThinking then
          ((md.phaseThinking.getD []).lookup phase.key).getD (DEFAULT_PHASE_THINKING phase)
        else if pyTruthy md.thinkingLevel then md.thinkingLevel.getD ""
        else DEFAULT_PHASE_THINKING phase
    | none => DEFAULT_PHASE_THINKING phase

/-! ### Characterization of the subtask counters -/

/-- All subtasks of a plan, in the iteration order of
`_get_subtask_counts` (phases, then their subtasks). -/
def all_subtasks (p : Plan) : List Subtask :=
  (p.phases.map PlanPhase.subtasks).flatten

/-- Normalized status is `"complete"`. -/
def is_complete (st : Subtask) : Bool := subtask_status st = "complete"

/-- Normalized status is `"in_progress"`. -/
def is_in_progress (st : Subtask) : Bool := subtask_status st = "in_progress"

/-- Normalized status is `"stuck"`. -/
def is_stuck (st : Subtask) : Bool := subtask_status st = "stuck"

/-- Falls into the `else` bucket of the counting loop. -/
def is_other (st : Subtask) : Bool :=
  !is_complete st && !is_in_progress st && !is_stuck st

theorem foldl_count_step (l : List Subtask) (c : Counts) :
    l.foldl count_step c =
      { completed := c.completed + l.countP is_complete,
        in_progress := c.in_progress + l.countP is_in_progress,
        pending := c.pending + l.countP is_other,
        stuck := c.stuck + l.countP is_stuck,
        total := c.total + l.length } := by
  induction l generalizing c with
  | nil => simp
  | cons st l ih =>
      simp only [List.foldl_cons, ih, List.countP_cons, List.length_cons]
      unfold count_step
      by_cases h1 : subtask_status st = "complete" <;>
        by_cases h2 : subtask_status st = "in_progress" <;>
          by_cases h3 : subtask_status st = "stuck" <;>
            simp_all [is_complete, is_in_progress, is_stuck, is_other] <;>
              constructor <;> omega

theorem counts_char (p : Plan) :
    get_subtask_counts p =
      { completed := (all_subtasks p).countP is_complete,
        in_progress := (all_subtasks p).countP is_in_progress,
        pending := (all_subtasks p).countP is_other,
        stuck := (all_subtasks p).countP is_stuck,
        total := (all_subtasks p).length } := by
  have h : get_subtask_counts p = (all_subtasks p).foldl count_step {} := by
    unfold get_subtask_counts all_subtasks
    rw [List.foldl_flatten, List.foldl_map]
  rw [h, foldl_count_step]
  simp

/-! ### Claim theorems -/

/-- C1: for every project state and every subprocess behaviour,
`discard_build` and `cleanup_worktrees` called with `confirm = false` (the
default when the argument is omitted) return the status-`blocked` result
and perform no mutation: the effect trace is empty, so no `git worktree
remove` and no `git branch -D` is ever issued. -/
theorem confirm_gate_blocks_and_preserves (fs : FS) (o : RunOracle) (id : String) :
    discard_build fs o id false = ([], discard_blocked)
    ∧ cleanup_worktrees fs o false = ([], cleanup_blocked)
    ∧ discard_blocked.lookup "status" = some (.s "blocked")
    ∧ cleanup_blocked.lookup "status" = some (.s "blocked") :=
  ⟨rfl, rfl, rfl, rfl⟩

/-- C10: `discard_build` with `confirm = false` evaluates the confirmation
gate before spec-id resolution and before any filesystem or subprocess
access: the result is the same `blocked` object for every project state
and every spec id (existing or unknown), carries no `error` or `found`
field, and the effect trace is empty. -/
theorem discard_gate_before_resolution
    (fs fs' : FS) (o o' : RunOracle) (id id' : String) :
    discard_build fs o id false = ([], discard_blocked)
    ∧ discard_build fs o id false = discard_build fs' o' id' false
    ∧ (discard_build fs o id false).2.lookup "status" = some (.s "blocked")
    ∧ (discard_build fs o id false).2.lookup "error" = none
    ∧ (discard_build fs o id false).2.lookup "found" = none :=
  ⟨rfl, rfl, rfl, rfl, rfl⟩

/-- C6: `get_thinking_budget` maps the five fixed tiers to
`none, 1024, 4096, 16384, 65536` and maps every other string to the
`"medium"` budget `4096` (the warning it logs is a side effect outside the
embedding); it is a total function, so it never raises. -/
theorem thinking_budget_mapping :
    get_thinking_budget "none" = none
    ∧ get_thinking_budget "low" = some 1024
    ∧ get_thinking_budget "medium" = some 4096
    ∧ get_thinking_budget "high" = some 16384
    ∧ get_thinking_budget "ultrathink" = some 65536
    ∧ ∀ s : String, s ∉ ["none", "low", "medium", "high", "ultrathink"] →
        get_thinking_budget s = some 4096 := by
  refine ⟨rfl, rfl, rfl, rfl, rfl, ?_⟩
  intro s h
  simp only [List.mem_cons, List.not_mem_nil, or_false, not_or] at h
  obtain ⟨h1, h2, h3, h4, h5⟩ := h
  have e1 : (s == "none") = false := beq_eq_false_iff_ne.mpr h1
  have e2 : (s == "low") = false := beq_eq_false_iff_ne.mpr h2
  have e3 : (s == "medium") = false := beq_eq_false_iff_ne.mpr h3
  have e4 : (s == "high") = false := beq_eq_false_iff_ne.mpr h4
  have e5 : (s == "ultrathink") = false := beq_eq_false_iff_ne.mpr h5
  simp [get_thinking_budget, THINKING_BUDGET_MAP, List.lookup, e1, e2, e3, e4, e5]

/-- C6 witness: the unrecognized tier `"bogus"` is outside the fixed set
and receives the `"medium"` budget. -/
theorem thinking_budget_mapping_witness :
    "bogus" ∉ ["none", "low", "medium", "high", "ultrathink"]
    ∧ get_thinking_budget "bogus" = some 4096 :=
  ⟨by decide, thinking_budget_mapping.2.2.2.2.2 "bogus" (by decide)⟩

/-- C4: whenever the process-wide primary-model override
(`AUTO_BUILD_MODEL`, else `ANTHROPIC_MODEL`) is set to a non-empty value,
`get_phase_model` returns that value passed through shorthand resolution,
for every spec directory, phase, and explicit per-call model argument —
the per-call argument, the auto-profile map, the single declared model,
and the per-phase default are all ignored. -/
theorem env_override_wins_model
    (env : Env) (sd : SpecEntry) (phase : Phase) (cli : Option String)
    (m : String) (hm : pyOr env.auto_build_model env.anthropic_model = some m)
    (hne : m ≠ "") :
    get_phase_model env sd phase cli = resolve_model_id env m := by
  unfold get_phase_model
  rw [hm]
  simp [pyTruthy, hne]

/-- C4 witness: with `AUTO_BUILD_MODEL=kimi-k2`, an explicit `opus`
argument and an auto-profile metadata map are both overridden. -/
theorem env_override_wins_model_witness :
    get_phase_model { auto_build_model := some "kimi-k2" }
        { task_metadata_file := some (some { isAutoProfile := some true,
                                             phaseModels := some [("planning", "opus")] }) }
        .planning (some "opus")
      = resolve_model_id { auto_build_model := some "kimi-k2" } "kimi-k2"
    ∧ resolve_model_id { auto_build_model := some "kimi-k2" } "kimi-k2" = "kimi-k2" :=
  ⟨env_override_wins_model _ _ _ _ "kimi-k2" rfl (by decide), by decide⟩

/-- C5: `get_phase_thinking` returns a non-empty explicit per-call tier
unchanged, for every environment and metadata state; with no per-call
argument, an auto-profile per-phase entry wins over the single declared
tier, a single declared tier wins over the per-phase default, and the
default applies when neither is present. -/
theorem thinking_precedence :
    (∀ (env : Env) (sd : SpecEntry) (phase : Phase) (c : String), c ≠ "" →
        get_phase_thinking env sd phase (some c) = c)
    ∧ (∀ (env : Env) (sd : SpecEntry) (phase : Phase) (md : TaskMetadata) (t : String),
        load_task_metadata sd = some md →
        md.isAutoProfile.getD false = true →
        pyTruthyDict md.phaseThinking = true →
        (md.phaseThinking.getD []).lookup phase.key = some t →
        get_phase_thinking env sd phase none = t)
    ∧ (∀ (env : Env) (sd : SpecEntry) (phase : Phase) (md : TaskMetadata) (t : String),
        load_task_metadata sd = some md →
        (md.isAutoProfile.getD false && pyTruthyDict md.phaseThinking) = false →
        md.thinkingLevel = some t → t ≠ "" →
        get_phase_thinking env sd phase none = t)
    ∧ (∀ (env : Env) (sd : SpecEntry) (phase : Phase) (md : TaskMetadata),
        load_task_metadata sd = some md →
        (md.isAutoProfile.getD false && pyTruthyDict md.phaseThinking) = false →
        pyTruthy md.thinkingLevel = false →
        get_phase_thinking env sd phase none = DEFAULT_PHASE_THINKING phase)
    ∧ (∀ (env : Env) (sd : SpecEntry) (phase : Phase),
        load_task_metadata sd = none →
        get_phase_thinking env sd phase none = DEFAULT_PHASE_THINKING phase) := by
  refine ⟨?_, ?_, ?_, ?_, ?_⟩
  · intro env sd phase c hc
    simp [get_phase_thinking, pyTruthy, hc]
  · intro env sd phase md t hmd hauto hdict hlook
    simp [get_phase_thinking, pyTruthy, hmd, hauto, hdict, hlook]
  · intro env sd phase md t hmd hgate ht htne
    simp [get_phase_thinking, pyTruthy, hmd, hgate, ht, htne]
  · intro env sd phase md hmd hgate ht
    have hnone : pyTruthy none = false := rfl
    simp [get_phase_thinking, hnone, hmd, hgate, ht]
  · intro env sd phase hmd
    simp [get_phase_thinking, pyTruthy, hmd]

/-- C5 witness: an explicit `"low"` argument beats a populated
auto-profile map, and without an argument the auto-profile map's
`"ultrathink"` entry beats a declared `"medium"` tier. -/
theorem thinking_precedence_witness :
    get_phase_thinking {}
        { task_metadata_file := some (some { isAutoProfile := some true,
                                             phaseThinking := some [("qa", "ultrathink")],
                                             thinkingLevel := some "medium" }) }
        .qa (some "low") = "low"
    ∧ get_phase_thinking {}
        { task_metadata_file := some (some { isAutoProfile := some true,
                                             phaseThinking := some [("qa", "ultrathink")],
                                             thinkingLevel := some "medium" }) }
        .qa none = "ultrathink" :=
  ⟨thinking_precedence.1 _ _ _ "low" (by decide),
   thinking_precedence.2.1 _ _ _ _ "ultrathink" rfl rfl rfl rfl⟩

/-- C9: `merge_build` waits synchronously with a 60-second ceiling: every
subprocess call it issues carries `timeout = 60`; a timed-out wait yields
the terminal result `{status: error, error: "Merge timed out"}`, while a
completed subprocess with nonzero exit yields the generic-failure result
carrying the subprocess's own stderr text.  The embedding is a total
function, so no exception reaches the caller. -/
theorem merge_build_timeout_semantics :
    MERGE_TIMEOUT = 60
    ∧ (∀ (fs : FS) (o : RunOracle) (id : String) (nc : Bool) (e : Effect),
        e ∈ (merge_build fs o id nc).1 →
        ∃ c : SubprocessCall, e = .runProc c ∧ c.timeout = some 60)
    ∧ (∀ (fs : FS) (o : RunOracle) (id : String) (nc : Bool) (sd : SpecEntry),
        find_spec fs id = some sd →
        o (merge_call fs sd nc) = .timedOut →
        merge_build fs o id nc =
          ([.runProc (merge_call fs sd nc)],
           [("status", .s "error"), ("error", .s "Merge timed out")]))
    ∧ (∀ (fs : FS) (o : RunOracle) (id : String) (nc : Bool) (sd : SpecEntry)
        (rc : Int) (out err : String),
        find_spec fs id = some sd →
        o (merge_call fs sd nc) = .completed rc out err →
        rc ≠ 0 →
        merge_build fs o id nc =
          ([.runProc (merge_call fs sd nc)],
           [("status", .s "error"), ("spec_id", .s sd.name),
            ("output", .s out), ("error", .s err)])) := by
  refine ⟨rfl, ?_, ?_, ?_⟩
  · intro fs o id nc e he
    unfold merge_build at he
    cases hf : find_spec fs id with
    | none => rw [hf] at he; simp at he
    | some sd =>
        rw [hf] at he
        cases ho : o (merge_call fs sd nc) <;>
          simp only [ho] at he <;> simp at he <;>
            exact ⟨merge_call fs sd nc, he, rfl⟩
  · intro fs o id nc sd hf ho
    unfold merge_build
    rw [hf]
    simp only [ho]
  · intro fs o id nc sd rc out err hf ho hrc
    unfold merge_build
    rw [hf]
    simp only [ho]
    simp [hrc]

/-- C9 witness: a project with spec `001` whose merge subprocess times out
yields exactly the "Merge timed out" terminal result. -/
theorem merge_build_timeout_witness :
    merge_build { project_dir := "p", specs := some [{ name := "001" }] }
        (fun _ => .timedOut) "001" false =
      ([.runProc (merge_call { project_dir := "p", specs := some [{ name := "001" }] }
                    { name := "001" } false)],
       [("status", .s "error"), ("error", .s "Merge timed out")]) :=
  merge_build_timeout_semantics.2.2.1 _ _ "001" false { name := "001" } rfl rfl

/-- Reformulation of `_get_spec_overall_status` over the flattened
subtask list. -/
theorem overall_status_by_countP (sd : SpecEntry) (p : Plan) :
    get_spec_overall_status sd (some p) =
      (if (all_subtasks p).length = 0 then "pending"
       else if (all_subtasks p).countP is_complete = (all_subtasks p).length then
         (if sd.qa_report.isSome then "qa_complete" else "complete")
       else if 0 < (all_subtasks p).countP is_in_progress then "in_progress"
       else if 0 < (all_subtasks p).countP is_stuck then "stuck"
       else "pending") := by
  simp only [get_spec_overall_status, counts_char]

/-- C2: the overall spec status follows the fixed priority order of
`_get_spec_overall_status`: no plan or zero subtasks ⇒ `pending`; all
subtasks complete ⇒ `qa_complete` when the QA report exists, else
`complete`; otherwise an `in_progress` subtask ⇒ `in_progress`; otherwise
a `stuck` subtask ⇒ `stuck`; otherwise `pending`.  In particular a plan
containing both a `stuck` and an `in_progress` subtask is reported
`in_progress`, never `stuck`. -/
theorem overall_status_priority (sd : SpecEntry) :
    get_spec_overall_status sd none = "pending"
    ∧ (∀ p : Plan, all_subtasks p = [] →
        get_spec_overall_status sd (some p) = "pending")
    ∧ (∀ p : Plan, all_subtasks p ≠ [] →
        (∀ st ∈ all_subtasks p, subtask_status st = "complete") →
        get_spec_overall_status sd (some p) =
          if sd.qa_report.isSome then "qa_complete" else "complete")
    ∧ (∀ p : Plan, (∃ st ∈ all_subtasks p, subtask_status st = "in_progress") →
        get_spec_overall_status sd (some p) = "in_progress")
    ∧ (∀ p : Plan, (¬∃ st ∈ all_subtasks p, subtask_status st = "in_progress") →
        (∃ st ∈ all_subtasks p, subtask_status st = "stuck") →
        get_spec_overall_status sd (some p) = "stuck")
    ∧ (∀ p : Plan, all_subtasks p ≠ [] →
        ¬(∀ st ∈ all_subtasks p, subtask_status st = "complete") →
        (¬∃ st ∈ all_subtasks p, subtask_status st = "in_progress") →
        (¬∃ st ∈ all_subtasks p, subtask_status st = "stuck") →
        get_spec_overall_status sd (some p) = "pending")
    ∧ (∀ p : Plan, (∃ st ∈ all_subtasks p, subtask_status st = "stuck") →
        (∃ st ∈ all_subtasks p, subtask_status st = "in_progress") →
        get_spec_overall_status sd (some p) = "in_progress"
          ∧ get_spec_overall_status sd (some p) ≠ "stuck") := by
  have hip_pos : ∀ p : Plan,
      (∃ st ∈ all_subtasks p, subtask_status st = "in_progress") →
      get_spec_overall_status sd (some p) = "in_progress" := by
    intro p hex
    obtain ⟨st, hmem, hst⟩ := hex
    have hip : 0 < (all_subtasks p).countP is_in_progress := by
      refine List.countP_pos_iff.mpr ⟨st, hmem, ?_⟩
      simp [is_in_progress, hst]
    have hnc : (all_subtasks p).countP is_complete ≠ (all_subtasks p).length := by
      intro h
      have := List.countP_eq_length.mp h st hmem
      simp [is_complete, hst] at this
    have hlen : (all_subtasks p).length ≠ 0 := by
      simp only [ne_eq, List.length_eq_zero]
      intro h; rw [h] at hmem; simp at hmem
    rw [overall_status_by_countP]
    simp [hlen, hnc, hip]
  refine ⟨rfl, ?_, ?_, hip_pos, ?_, ?_, ?_⟩
  · intro p hA
    rw [overall_status_by_countP]
    simp [hA]
  · intro p hne hall
    have hc : (all_subtasks p).countP is_complete = (all_subtasks p).length := by
      refine List.countP_eq_length.mpr ?_
      intro a ha; simp [is_complete, hall a ha]
    have hlen : (all_subtasks p).length ≠ 0 := by
      simpa only [ne_eq, List.length_eq_zero] using hne
    rw [overall_status_by_countP]
    simp [hlen, hc]
  · intro p hnip hstuck
    obtain ⟨st, hmem, hst⟩ := hstuck
    have hsp : 0 < (all_subtasks p).countP is_stuck := by
      refine List.countP_pos_iff.mpr ⟨st, hmem, ?_⟩
      simp [is_stuck, hst]
    have hip0 : (all_subtasks p).countP is_in_progress = 0 := by
      refine List.countP_eq_zero.mpr ?_
      intro a ha hcon
      exact hnip ⟨a, ha, by simpa [is_in_progress] using hcon⟩
    have hnc : (all_subtasks p).countP is_complete ≠ (all_subtasks p).length := by
      intro h
      have := List.countP_eq_length.mp h st hmem
      simp [is_complete, hst] at this
    have hlen : (all_subtasks p).length ≠ 0 := by
      simp only [ne_eq, List.length_eq_zero]
      intro h; rw [h] at hmem; simp at hmem
    rw [overall_status_by_countP]
    simp [hlen, hnc, hip0, hsp]
  · intro p hne hnall hnip hnstuck
    have hip0 : (all_subtasks p).countP is_in_progress = 0 := by
      refine List.countP_eq_zero.mpr ?_
      intro a ha hcon
      exact hnip ⟨a, ha, by simpa [is_in_progress] using hcon⟩
    have hs0 : (all_subtasks p).countP is_stuck = 0 := by
      refine List.countP_eq_zero.mpr ?_
      intro a ha hcon
      exact hnstuck ⟨a, ha, by simpa [is_stuck] using hcon⟩
    have hnc : (all_subtasks p).countP is_complete ≠ (all_subtasks p).length := by
      intro h
      exact hnall (fun a ha => by simpa [is_complete] using List.countP_eq_length.mp h a ha)
    have hlen : (all_subtasks p).length ≠ 0 := by
      simpa only [ne_eq, List.length_eq_zero] using hne
    rw [overall_status_by_countP]
    simp [hlen, hnc, hip0, hs0]
  · intro p _hstuck hip
    refine ⟨hip_pos p hip, ?_⟩
    rw [hip_pos p hip]
    decide

/-- C2 witness: a plan holding one stuck and one in-progress subtask is
reported `in_progress` (and not `stuck`), discharging the priority-law
hypotheses at a concrete input. -/
theorem overall_status_priority_witness :
    get_spec_overall_status {}
        (some { phases := [{ subtasks := [{ status := some "stuck" },
                                          { status := some "in_progress" }] }] })
      = "in_progress" :=
  ((overall_status_priority {}).2.2.2.2.2.2
      { phases := [{ subtasks := [{ status := some "stuck" },
                                  { status := some "in_progress" }] }] }
      ⟨{ status := some "stuck" }, by simp [all_subtasks], by simp [subtask_status]⟩
      ⟨{ status := some "in_progress" }, by simp [all_subtasks], by simp [subtask_status]⟩).1

/-- C3 counterexample: a phase whose only subtask is `in_progress` (and
none complete) is reported `pending` by `get_spec_status`, not
`in_progress` as the claim states. -/
theorem phase_status_in_progress_counterexample :
    phase_status [{ status := some "in_progress" }] = "pending"
    ∧ (get_spec_status
        { project_dir := "p",
          specs := some [{ name := "001",
                           plan_file := some (some { phases :=
                             [{ name := some "Phase 1",
                                subtasks := [{ id := some "1",
                                               status := some "in_progress" }] }] }) }] }
        "001").lookup "phases" =
      some (.arr [.obj [("name", .s "Phase 1"), ("status", .s "pending"),
                        ("subtasks", .n 1), ("completed", .n 0)]])
    ∧ ("pending" : String) ≠ "in_progress" :=
  ⟨rfl, rfl, by decide⟩

/-- C3 amended: `get_spec_status` reports a phase `complete` iff every
subtask in it is complete (an empty phase counts as complete),
`in_progress` iff the phase is not complete and at least one subtask is
complete, and `pending` otherwise; a phase containing an `in_progress`
subtask but no complete subtask is reported `pending`. -/
theorem phase_status_characterization :
    (∀ l : List Subtask,
      (phase_status l = "complete" ↔ ∀ st ∈ l, st.status = some "complete")
      ∧ (phase_status l = "in_progress" ↔
          ¬(∀ st ∈ l, st.status = some "complete")
            ∧ ∃ st ∈ l, st.status = some "complete")
      ∧ (phase_status l = "pending" ↔
          l ≠ [] ∧ ∀ st ∈ l, st.status ≠ some "complete"))
    ∧ (∀ (fs : FS) (id : String) (sd : SpecEntry) (p : Plan),
        find_spec fs id = some sd →
        sd.plan_file = some (some p) →
        (get_spec_status fs id).lookup "phases" =
          some (.arr (phases_summary p.phases))) := by
  constructor
  · intro l
    have h1 : phase_completed_count l = l.length ↔
        ∀ st ∈ l, st.status = some "complete" := by
      unfold phase_completed_count
      rw [List.countP_eq_length]
      simp
    have h2 : 0 < phase_completed_count l ↔
        ∃ st ∈ l, st.status = some "complete" := by
      unfold phase_completed_count
      rw [List.countP_pos_iff]
      simp
    have h3 : phase_completed_count l = 0 ↔
        ∀ st ∈ l, st.status ≠ some "complete" := by
      unfold phase_completed_count
      rw [List.countP_eq_zero]
      simp
    by_cases hc : phase_completed_count l = l.length
    · have hps : phase_status l = "complete" := by simp [phase_status, hc]
      refine ⟨?_, ?_, ?_⟩ <;> rw [hps]
      · exact iff_of_true rfl (h1.mp hc)
      · exact iff_of_false (by decide) (fun h => h.1 (h1.mp hc))
      · constructor
        · intro h; exact absurd h (by decide)
        · rintro ⟨hne, hall⟩
          obtain ⟨st, hst⟩ := List.exists_mem_of_ne_nil l hne
          exact absurd (h1.mp hc st hst) (hall st hst)
    · by_cases hp : 0 < phase_completed_count l
      · have hps : phase_status l = "in_progress" := by simp [phase_status, hc, hp]
        refine ⟨?_, ?_, ?_⟩ <;> rw [hps]
        · constructor
          · intro h; exact absurd h (by decide)
          · intro h; exact absurd (h1.mpr h) hc
        · constructor
          · intro _; exact ⟨fun hall => hc (h1.mpr hall), h2.mp hp⟩
          · intro _; rfl
        · constructor
          · intro h; exact absurd h (by decide)
          · rintro ⟨_, hall⟩
            rw [h3.mpr hall] at hp
            exact absurd hp (by simp)
      · have hk0 : phase_completed_count l = 0 := Nat.eq_zero_of_not_pos hp
        have hlen : l ≠ [] := by
          intro h; subst h
          exact hc (by simp [phase_completed_count])
        have hps : phase_status l = "pending" := by simp [phase_status, hc, hp]
        refine ⟨?_, ?_, ?_⟩ <;> rw [hps]
        · constructor
          · intro h; exact absurd h (by decide)
          · intro hall; exact absurd (h1.mpr hall) hc
        · constructor
          · intro h; exact absurd h (by decide)
          · rintro ⟨_, hex⟩
            rw [hk0] at h2
            obtain ⟨st, hmem, hst⟩ := hex
            exact absurd (h2.mpr ⟨st, hmem, hst⟩) (by simp)
        · exact iff_of_true rfl ⟨hlen, h3.mp hk0⟩
  · intro fs id sd p hf hp
    unfold get_spec_status
    rw [hf]
    simp only [load_implementation_plan, hp]
    rfl

/-- C3 amended witness: a fully complete one-subtask phase is reported
`complete`, and the reported phase list of a concrete project equals the
`phases_summary` of its plan. -/
theorem phase_status_characterization_witness :
    phase_status [{ status := some "complete" }] = "complete"
    ∧ (get_spec_status
        { project_dir := "p",
          specs := some [{ name := "002",
                           plan_file := some (some { phases :=
                             [{ name := some "P",
                                subtasks := [{ status := some "complete" }] }] }) }] }
        "002").lookup "phases" =
      some (.arr (phases_summary
        [{ name := some "P", subtasks := [{ status := some "complete" }] }])) :=
  ⟨(phase_status_characterization.1 _).1.mpr (by simp),
   phase_status_characterization.2 _ "002" _ _ rfl rfl⟩

/-- C7 counterexample: for an unknown spec id, `run_build` (an action
tool) returns `{error: ..., status: "error"}` — the same error string as
the query tools but with no `found` field, so the results are not
identically shaped across all operations as the claim states. -/
theorem not_found_shape_counterexample :
    (run_build { project_dir := "p", specs := some [] }
        (fun _ => .raised "boom") "001" none none "isolated" true false).2 =
      [("error", .s "Spec '001' not found"), ("status", .s "error")]
    ∧ ((run_build { project_dir := "p", specs := some [] }
        (fun _ => .raised "boom") "001" none none "isolated" true false).2).lookup "found" =
      none
    ∧ get_spec_status { project_dir := "p", specs := some [] } "001" =
      [("error", .s "Spec '001' not found"), ("found", .b false)]
    ∧ [(("error" : String), JVal.s "Spec '001' not found"), ("status", JVal.s "error")] ≠
      [("error", JVal.s "Spec '001' not found"), ("found", JVal.b false)] := by
  refine ⟨rfl, rfl, rfl, ?_⟩
  intro h
  have := List.tail_eq_of_cons_eq h
  simp at this

/-- C7 amended: an unknown spec id yields the uniform error string
`"Spec '<id>' not found"` in every operation and no exception escapes, but
in two shapes: the query tools (`get_spec_status`, `get_qa_status`,
`review_build`, `merge_preview`) return `{error, found: false}`, while the
action tools (`run_build`, `run_qa`, `run_followup`, `merge_build`, and
`discard_build` with `confirm=true`) return `{error, status: "error"}`
without a `found` field; none of them performs any subprocess call. -/
theorem not_found_uniformity (fs : FS) (id : String)
    (h : find_spec fs id = none) :
    get_spec_status fs id = not_found_query id
    ∧ get_qa_status fs id = not_found_query id
    ∧ (∀ o : RunOracle, review_build fs o id = ([], not_found_query id))
    ∧ (∀ o : RunOracle, merge_preview fs o id = ([], not_found_query id))
    ∧ (∀ (l : SpawnOracle) (model : Option String) (maxit : Option Nat)
        (mode : String) (ac sq : Bool),
        run_build fs l id model maxit mode ac sq = ([], not_found_action id))
    ∧ (∀ l : SpawnOracle, run_qa fs l id = ([], not_found_action id))
    ∧ (∀ l : SpawnOracle, run_followup fs l id = ([], not_found_action id))
    ∧ (∀ (o : RunOracle) (nc : Bool),
        merge_build fs o id nc = ([], not_found_action id))
    ∧ (∀ o : RunOracle, discard_build fs o id true = ([], not_found_action id)) := by
  refine ⟨?_, ?_, ?_, ?_, ?_, ?_, ?_, ?_, ?_⟩
  · unfold get_spec_status; rw [h]
  · unfold get_qa_status; rw [h]
  · intro o; unfold review_build; rw [h]
  · intro o; unfold merge_preview; rw [h]
  · intro l model maxit mode ac sq; unfold run_build; rw [h]
  · intro l; unfold run_qa; rw [h]
  · intro l; unfold run_followup; rw [h]
  · intro o nc; unfold merge_build; rw [h]
  · intro o; unfold discard_build; rw [h]; rfl

/-- C7 amended witness: the two shapes on a concrete empty project. -/
theorem not_found_uniformity_witness :
    get_qa_status { project_dir := "p", specs := some [] } "001" =
      not_found_query "001"
    ∧ merge_build { project_dir := "p", specs := some [] }
        (fun _ => .timedOut) "001" false = ([], not_found_action "001") :=
  ⟨(not_found_uniformity { project_dir := "p", specs := some [] } "001" rfl).2.1,
   (not_found_uniformity { project_dir := "p", specs := some [] } "001" rfl).2.2.2.2.2.2.2.1
     (fun _ => .timedOut) false⟩

/-- C8 counterexample: with a malformed `qa_state.json` next to a passing
`qa_report.md`, `get_qa_status` returns the untouched defaults
(`qa_run=false, passed=false, last_run=null`) — not the markdown-derived
values it returns when `qa_state.json` is absent, so the result is not
"exactly as if qa_state.json did not exist". -/
theorem qa_state_malformed_counterexample :
    get_qa_status
        { project_dir := "p",
          specs := some [{ name := "001",
                           qa_state_file := some none,
                           qa_report := some { content := "PASSED",
                                               mtime_iso := "2026-01-01T00:00:00" } }] }
        "001" =
      [("spec_id", .s "001"), ("found", .b true), ("qa_run", .b false),
       ("passed", .b false), ("issues", .arr []), ("last_run", .null)]
    ∧ get_qa_status
        { project_dir := "p",
          specs := some [{ name := "001",
                           qa_state_file := none,
                           qa_report := some { content := "PASSED",
                                               mtime_iso := "2026-01-01T00:00:00" } }] }
        "001" =
      [("spec_id", .s "001"), ("found", .b true), ("qa_run", .b true),
       ("passed", .b true), ("issues", .arr []),
       ("last_run", .s "2026-01-01T00:00:00")] :=
  ⟨rfl, rfl⟩

/-- C8 amended: when `qa_state.json` exists but fails to parse,
`get_qa_status` raises nothing and returns the defaults
(`qa_run=false, passed=false, issues=[], last_run=null`) regardless of any
`qa_report.md`; the markdown report is consulted only when
`qa_state.json` does not exist at all. -/
theorem qa_state_malformed_defaults (fs : FS) (id : String) (sd : SpecEntry)
    (hf : find_spec fs id = some sd) (hq : sd.qa_state_file = some none) :
    get_qa_status fs id =
      [("spec_id", .s sd.name), ("found", .b true), ("qa_run", .b false),
       ("passed", .b false), ("issues", .arr []), ("last_run", .null)] := by
  unfold get_qa_status
  rw [hf]
  simp only [hq]
  rfl

/-- C8 amended witness: concrete project with a malformed `qa_state.json`
and a passing `qa_report.md`. -/
theorem qa_state_malformed_defaults_witness :
    get_qa_status
        { project_dir := "p",
          specs := some [{ name := "003",
                           qa_state_file := some none,
                           qa_report := some { content := "All checks PASSED",
                                               mtime_iso := "2026-02-02T00:00:00" } }] }
        "003" =
      [("spec_id", .s "003"), ("found", .b true), ("qa_run", .b false),
       ("passed", .b false), ("issues", .arr []), ("last_run", .null)] :=
  qa_state_malformed_defaults
    { project_dir := "p",
      specs := some [{ name := "003",
                       qa_state_file := some none,
                       qa_report := some { content := "All checks PASSED",
                                           mtime_iso := "2026-02-02T00:00:00" } }] }
    "003"
    { name := "003",
      qa_state_file := some none,
      qa_report := some { content := "All checks PASSED",
                          mtime_iso := "2026-02-02T00:00:00" } }
    rfl rfl

end AutoClaude
